import Mathlib

/-!
Verification development for the websocketpp legacy ("hybi-00") handshake
processor and the chat-server example.

The repository sources available are the hybi-00 processor test suite
(`test/processors/hybi00.cpp`) and the chat example
(`examples/chat_server/chat.cpp`).  The processor implementation itself
(`websocketpp/processors/hybi00.hpp` and companions) is exercised by the
tests but its code is not present; those operations are modelled from the
specification, as marked on each definition.  The chat-server definitions
are translated directly from `chat.cpp`.

Strings are modelled with Lean `String`/`List Char`; bytes with `Nat`
values below 256; 32-bit arithmetic is `Nat` arithmetic reduced modulo
`2 ^ 32` where the algorithm requires it.
-/

/-- Modelled from the spec: the shared error taxonomy of §7 (the error
enumeration of `websocketpp::processor::error`, whose header is not in the
available sources). -/
inductive HandshakeError where
  | invalid_http_method
  | invalid_http_version
  | missing_required_header
  | invalid_handshake_key
  | unsupported_version
  | uri_resolution_failed
  | unknown_resource
  | origin_rejected
  | protocol_violation
  | message_too_large
  deriving DecidableEq, Repr

instance {ε α : Type} [DecidableEq ε] [DecidableEq α] :
    DecidableEq (Except ε α) := fun x y =>
  match x, y with
  | .ok a, .ok b =>
    if h : a = b then isTrue (by rw [h]) else isFalse (fun hh => h (Except.ok.inj hh))
  | .error a, .error b =>
    if h : a = b then isTrue (by rw [h]) else isFalse (fun hh => h (Except.error.inj hh))
  | .ok _, .error _ => isFalse (fun hh => Except.noConfusion hh)
  | .error _, .ok _ => isFalse (fun hh => Except.noConfusion hh)

/-- Modelled from the spec: the handshake request data model of §3 — a
method token, an HTTP version (major, minor), a case-insensitive header
mapping, and the resource path of the request line (the
`websocketpp::http::parser::request` type is not in the available
sources). -/
structure Request where
  method : String
  version : Nat × Nat
  resource : String
  headers : List (String × String)
  deriving DecidableEq, Repr

/-- Lower-case a string character by character. -/
def strLower (s : String) : String :=
  String.mk (s.toList.map Char.toLower)

/-- Strip surrounding whitespace from a character list. -/
def trimChars (l : List Char) : List Char :=
  ((l.dropWhile Char.isWhitespace).reverse.dropWhile Char.isWhitespace).reverse

/-- Strip surrounding whitespace from a string. -/
def strTrim (s : String) : String :=
  String.mk (trimChars s.toList)

/-- Split a character list at every occurrence of the separator. -/
def splitOnAuxL (sep : Char) : List Char → List Char → List (List Char)
  | [], acc => [acc.reverse]
  | c :: rest, acc =>
    if c = sep then acc.reverse :: splitOnAuxL sep rest []
    else splitOnAuxL sep rest (c :: acc)

/-- Split a string at every occurrence of the separator character. -/
def splitOnStr (s : String) (sep : Char) : List String :=
  (splitOnAuxL sep s.toList []).map String.mk

/-- Modelled from the spec: case-insensitive header lookup (§3: an
"ordered-irrelevant mapping of header name (case-insensitive) → value"). -/
def getHeader (req : Request) (name : String) : Option String :=
  (req.headers.find? (fun p => strLower p.1 == strLower name)).map Prod.snd

/-- Modelled from the spec: the handshake response data model of §3 — a
status code, a header mapping, and an optional raw body (the legacy
variant's 16-byte digest, held here as a byte list). -/
structure Response where
  status : Nat
  headers : List (String × String)
  body : List Nat
  deriving DecidableEq, Repr

/-- Case-insensitive header lookup on a response. -/
def getResponseHeader (res : Response) (name : String) : Option String :=
  (res.headers.find? (fun p => strLower p.1 == strLower name)).map Prod.snd

/-- Comma-separated token list of a header value, each token trimmed of
surrounding whitespace (§4.1, §4.4). -/
def tokenList (v : String) : List String :=
  (splitOnStr v ',').map strTrim

/-- Whether a header value contains the given token among its
comma-separated tokens, compared case-insensitively after trimming. -/
def hasToken (v tok : String) : Bool :=
  (tokenList v).any (fun t => strLower t == tok)

/-- Modelled from the spec: §4.1 `is_upgrade_request` (the free function
`websocketpp::processor::is_websocket_handshake`, not in the available
sources): true iff the Connection header contains the case-insensitive
token "upgrade" and the Upgrade header contains the case-insensitive token
"websocket".  A missing header behaves as the empty value. -/
def is_websocket_handshake (req : Request) : Bool :=
  hasToken ((getHeader req "Connection").getD "") "upgrade" &&
  hasToken ((getHeader req "Upgrade").getD "") "websocket"

/-- HTTP version at least 1.1, on (major, minor) pairs. -/
def versionAtLeast11 (v : Nat × Nat) : Bool :=
  decide (1 < v.1 ∨ (v.1 = 1 ∧ 1 ≤ v.2))

/-- The headers the legacy revision requires (§4.2 rule 3). -/
def requiredHeaders : List String :=
  ["Host", "Connection", "Upgrade", "Sec-WebSocket-Key1", "Sec-WebSocket-Key2"]

/-- Modelled from the spec: §4.2 handshake validation for the legacy
revision (`hybi00::validate_handshake`, not in the available sources).
Checks, in order: method GET, HTTP version ≥ 1.1, presence of every
required header (any absent required header yields the single error
`missing_required_header`).  Validation never attempts URI resolution. -/
def validate_handshake (req : Request) : Except HandshakeError Unit :=
  if req.method ≠ "GET" then
    .error .invalid_http_method
  else if ¬ versionAtLeast11 req.version then
    .error .invalid_http_version
  else if requiredHeaders.all (fun h => (getHeader req h).isSome) then
    .ok ()
  else
    .error .missing_required_header

/-- The structured endpoint produced by the URI resolver (§2, §3). -/
structure Endpoint where
  secure : Bool
  host : String
  port : Nat
  resource : String
  deriving DecidableEq, Repr

/-- Parse a decimal port string; `none` when empty or not all digits. -/
def parsePortDigits (s : String) : Option Nat :=
  if s ≠ "" ∧ s.toList.all Char.isDigit then
    some (s.toList.foldl (fun acc c => acc * 10 + (c.toNat - 48)) 0)
  else
    none

/-- Modelled from the spec: the URI resolver (§2) as used by
`hybi00::get_uri` (not in the available sources).  The Host header value,
split at a colon into host and port, plus the request's resource path,
yields an endpoint; a port outside 0–65535 is a distinct failure
(`uri_resolution_failed`), not silently clamped. -/
def get_uri (secure : Bool) (req : Request) : Except HandshakeError Endpoint :=
  match getHeader req "Host" with
  | none => .error .uri_resolution_failed
  | some h =>
    match splitOnStr h ':' with
    | [host] => .ok ⟨secure, host, if secure then 443 else 80, req.resource⟩
    | [host, portStr] =>
      match parsePortDigits portStr with
      | none => .error .uri_resolution_failed
      | some p =>
        if 65535 < p then .error .uri_resolution_failed
        else .ok ⟨secure, host, p, req.resource⟩
    | _ => .error .uri_resolution_failed

/-- Modelled from the spec: §4.4 `extract_subprotocols` (the processor
base implementation is not in the available sources): parses the
subprotocol header's comma-separated token list, trimming each token;
header absence is success with the empty list, never a failure. -/
def extract_subprotocols (req : Request) : Except HandshakeError (List String) :=
  match getHeader req "Sec-WebSocket-Protocol" with
  | none => .ok []
  | some v => .ok (tokenList v)

/-- Reduce to an unsigned 32-bit value. -/
def w32 (n : Nat) : Nat := n % 4294967296

/-- 32-bit left rotation. -/
def rotl32 (x s : Nat) : Nat :=
  ((x <<< s) ||| (x >>> (32 - s))) % 4294967296

/-- The 64 MD5 round constants. -/
def md5K : List Nat :=
  [0xd76aa478, 0xe8c7b756, 0x242070db, 0xc1bdceee,
   0xf57c0faf, 0x4787c62a, 0xa8304613, 0xfd469501,
   0x698098d8, 0x8b44f7af, 0xffff5bb1, 0x895cd7be,
   0x6b901122, 0xfd987193, 0xa679438e, 0x49b40821,
   0xf61e2562, 0xc040b340, 0x265e5a51, 0xe9b6c7aa,
   0xd62f105d, 0x02441453, 0xd8a1e681, 0xe7d3fbc8,
   0x21e1cde6, 0xc33707d6, 0xf4d50d87, 0x455a14ed,
   0xa9e3e905, 0xfcefa3f8, 0x676f02d9, 0x8d2a4c8a,
   0xfffa3942, 0x8771f681, 0x6d9d6122, 0xfde5380c,
   0xa4beea44, 0x4bdecfa9, 0xf6bb4b60, 0xbebfbc70,
   0x289b7ec6, 0xeaa127fa, 0xd4ef3085, 0x04881d05,
   0xd9d4d039, 0xe6db99e5, 0x1fa27cf8, 0xc4ac5665,
   0xf4292244, 0x432aff97, 0xab9423a7, 0xfc93a039,
   0x655b59c3, 0x8f0ccc92, 0xffeff47d, 0x85845dd1,
   0x6fa87e4f, 0xfe2ce6e0, 0xa3014314, 0x4e0811a1,
   0xf7537e82, 0xbd3af235, 0x2ad7d2bb, 0xeb86d391]

/-- The 64 MD5 per-round shift amounts. -/
def md5S : List Nat :=
  [7, 12, 17, 22, 7, 12, 17, 22, 7, 12, 17, 22, 7, 12, 17, 22,
   5, 9, 14, 20, 5, 9, 14, 20, 5, 9, 14, 20, 5, 9, 14, 20,
   4, 11, 16, 23, 4, 11, 16, 23, 4, 11, 16, 23, 4, 11, 16, 23,
   6, 10, 15, 21, 6, 10, 15, 21, 6, 10, 15, 21, 6, 10, 15, 21]

/-- The MD5 round mixing function, by round index. -/
def md5F (i b c d : Nat) : Nat :=
  if i < 16 then (b &&& c) ||| ((b ^^^ 0xffffffff) &&& d)
  else if i < 32 then (d &&& b) ||| ((d ^^^ 0xffffffff) &&& c)
  else if i < 48 then b ^^^ c ^^^ d
  else c ^^^ (b ||| (d ^^^ 0xffffffff))

/-- The MD5 message-word index, by round index. -/
def md5G (i : Nat) : Nat :=
  if i < 16 then i
  else if i < 32 then (5 * i + 1) % 16
  else if i < 48 then (3 * i + 5) % 16
  else (7 * i) % 16

/-- Little-endian 32-bit word number `i` of a byte list. -/
def le32At (bs : List Nat) (i : Nat) : Nat :=
  bs.getD (4 * i) 0 + 256 * bs.getD (4 * i + 1) 0 +
  65536 * bs.getD (4 * i + 2) 0 + 16777216 * bs.getD (4 * i + 3) 0

/-- One MD5 round on the running (A, B, C, D) state. -/
def md5Step (m : List Nat) (st : Nat × Nat × Nat × Nat) (i : Nat) :
    Nat × Nat × Nat × Nat :=
  let (a, b, c, d) := st
  let f := w32 (md5F i b c d + a + md5K.getD i 0 + m.getD (md5G i) 0)
  (d, w32 (b + rotl32 f (md5S.getD i 0)), b, c)

/-- Process one padded 64-byte block. -/
def md5Block (st : Nat × Nat × Nat × Nat) (block : List Nat) :
    Nat × Nat × Nat × Nat :=
  let m := (List.range 16).map (le32At block)
  let (a, b, c, d) := (List.range 64).foldl (md5Step m) st
  (w32 (st.1 + a), w32 (st.2.1 + b), w32 (st.2.2.1 + c), w32 (st.2.2.2 + d))

/-- Split a byte list into 64-byte chunks (fuel-recursive so that it
reduces in the kernel). -/
def chunk64Aux : Nat → List Nat → List (List Nat)
  | 0, _ => []
  | _, [] => []
  | fuel + 1, b :: bs => (b :: bs).take 64 :: chunk64Aux fuel ((b :: bs).drop 64)

/-- Split a byte list into 64-byte chunks. -/
def chunk64 (l : List Nat) : List (List Nat) := chunk64Aux l.length l

/-- Little-endian 8-byte serialization of a 64-bit value. -/
def le64 (n : Nat) : List Nat :=
  [n % 256, n / 2 ^ 8 % 256, n / 2 ^ 16 % 256, n / 2 ^ 24 % 256,
   n / 2 ^ 32 % 256, n / 2 ^ 40 % 256, n / 2 ^ 48 % 256, n / 2 ^ 56 % 256]

/-- Little-endian 4-byte serialization of a 32-bit value. -/
def le32Bytes (n : Nat) : List Nat :=
  [n % 256, n / 256 % 256, n / 65536 % 256, n / 16777216 % 256]

/-- MD5 padding: a 0x80 byte, zeros to 56 mod 64, then the bit length as
a little-endian 64-bit value. -/
def md5Pad (msg : List Nat) : List Nat :=
  msg ++ [128] ++ List.replicate ((120 - (msg.length + 1) % 64) % 64) 0 ++
    le64 (8 * msg.length % 2 ^ 64)

/-- The MD5 digest (RFC 1321) of a byte list, as 16 bytes.  §4.3 step 4:
the legacy response body is the MD5 digest of the 16-byte key buffer. -/
def md5 (msg : List Nat) : List Nat :=
  let st := (chunk64 (md5Pad msg)).foldl md5Block
    (0x67452301, 0xefcdab89, 0x98badcfe, 0x10325476)
  le32Bytes st.1 ++ le32Bytes st.2.1 ++ le32Bytes st.2.2.1 ++ le32Bytes st.2.2.2

/-- The number formed by concatenating the decimal digits of a string in
order (§4.3 step 1). -/
def digitsVal (s : String) : Nat :=
  s.toList.foldl (fun acc c => if c.isDigit then acc * 10 + (c.toNat - 48) else acc) 0

/-- The number of space characters in a string (§4.3 step 1). -/
def spaceCount (s : String) : Nat :=
  (s.toList.filter (fun c => c = ' ')).length

/-- Modelled from the spec: §4.3 steps 1–2 of the legacy key derivation
(`hybi00::decode_client_key`, not in the available sources): concatenate
the decimal digits into an unsigned 32-bit number (overflow during digit
accumulation is a defined failure, not wraparound), count the spaces, and
divide; a space count of zero must fail explicitly
(`invalid_handshake_key`) rather than divide by zero. -/
def decode_client_key (s : String) : Except HandshakeError Nat :=
  if 2 ^ 32 ≤ digitsVal s then .error .invalid_handshake_key
  else if spaceCount s = 0 then .error .invalid_handshake_key
  else .ok (digitsVal s / spaceCount s)

/-- Big-endian 4-byte serialization of a 32-bit value (§4.3 step 3). -/
def be32 (n : Nat) : List Nat :=
  [n / 16777216 % 256, n / 65536 % 256, n / 256 % 256, n % 256]

/-- Modelled from the spec: §4.3 legacy key derivation (the hybi-00 key
handling of `hybi00.hpp`, not in the available sources): the two decoded
32-bit results, serialized big-endian, concatenated with the 8 raw bytes
of key3, digested with MD5. -/
def legacy_digest (key1 key2 : String) (key3 : List Nat) :
    Except HandshakeError (List Nat) :=
  match decode_client_key key1 with
  | .error e => .error e
  | .ok n1 =>
    match decode_client_key key2 with
    | .error e => .error e
    | .ok n2 => .ok (md5 (be32 n1 ++ be32 n2 ++ key3))

/-- The bytes of a string, one `Nat` per character code. -/
def strBytes (s : String) : List Nat := s.toList.map Char.toNat

/-- The legacy digest computed from a request's challenge headers: key1
and key2 from the two challenge headers, key3 from the third-key header
(the 8-byte key delivered as a header, as the transport framing of the
test suite does; a missing header behaves as the empty value). -/
def request_digest (req : Request) : Except HandshakeError (List Nat) :=
  legacy_digest ((getHeader req "Sec-WebSocket-Key1").getD "")
    ((getHeader req "Sec-WebSocket-Key2").getD "")
    (strBytes ((getHeader req "Sec-WebSocket-Key3").getD ""))

/-- Modelled from the spec: §4.3 `process_handshake(request, subprotocol,
response)` (`hybi00::process_handshake`, not in the available sources):
populates the response with Connection=Upgrade, Upgrade=websocket, the
origin-echo header, the location header `ws://{host}{resource}` (`wss://`
when secure), and the computed digest as body.  The spec assigns the
subprotocol argument no effect on the populated fields, so it is unused.
Key derivation failures (§4.3 step 2) propagate as errors. -/
def process_handshake (secure : Bool) (req : Request) (subprotocol : String) :
    Except HandshakeError Response :=
  match request_digest req with
  | .error e => .error e
  | .ok digest =>
    .ok { status := 101,
          headers :=
            [("Connection", "Upgrade"), ("Upgrade", "websocket"),
             ("Sec-WebSocket-Origin", (getHeader req "Origin").getD ""),
             ("Sec-WebSocket-Location",
              (if secure then "wss://" else "ws://") ++
                (getHeader req "Host").getD "" ++ req.resource)],
          body := digest }

/-- `boost::algorithm::replace_all` as used by `chat.cpp`: replace every
occurrence of `pat` in the subject, left to right, without rescanning
replacement text.  An empty pattern leaves the subject unchanged. -/
def replaceAll (pat repl : List Char) : List Char → List Char
  | [] => []
  | c :: rest =>
    if pat ≠ [] ∧ pat.isPrefixOf (c :: rest) = true then
      repl ++ replaceAll pat repl (rest.drop (pat.length - 1))
    else
      c :: replaceAll pat repl rest
termination_by l => l.length
decreasing_by
  all_goals simp [List.length_drop]
  omega

/-- String-level wrapper for `replaceAll`. -/
def strReplaceAll (s pat repl : String) : String :=
  String.mk (replaceAll pat.toList repl.toList s.toList)

/-- Translated from `chat.cpp` `chat_server_handler::encode_message`:
escape JSON characters (backslash, then double quote), then, when the
`escape` flag is set, the HTML characters & < >, and embed the result in
the message JSON object.  The sender is embedded verbatim (aliases are
stored pre-escaped). -/
def encode_message (sender msg : String) (escape : Bool) : String :=
  let j := strReplaceAll (strReplaceAll msg "\\" "\\\\") "\"" "\\\""
  let m :=
    if escape then
      strReplaceAll (strReplaceAll (strReplaceAll j "&" "&amp;") "<" "&lt;") ">" "&gt;"
    else j
  "\x7b\"type\":\"msg\",\"sender\":\"" ++ sender ++ "\",\"value\":\"" ++ m ++ "\"\x7d"

/-- The per-character escaping the spec describes for the chat payload
text: JSON-string escaping of backslash and double quote always, plus
HTML-entity escaping of & < > when the `escape` flag is set. -/
def escapeChar (escape : Bool) (c : Char) : List Char :=
  if c = '\\' then ['\\', '\\']
  else if c = '"' then ['\\', '"']
  else if escape then
    if c = '&' then "&amp;".toList
    else if c = '<' then "&lt;".toList
    else if c = '>' then "&gt;".toList
    else [c]
  else [c]

/-- Concatenation of the images of each character. -/
def concatMap (f : Char → List Char) : List Char → List Char
  | [] => []
  | c :: rest => f c ++ concatMap f rest

/-- The escaped payload text, character by character. -/
def escapedValue (escape : Bool) (msg : String) : String :=
  String.mk (concatMap (escapeChar escape) msg.toList)

/-- Translated from `chat.cpp` `chat_server_handler::serialize_state`:
the participants roster as a JSON array of the quoted aliases, in
connection-map order.  The connection map is modelled as an association
list from session identity (a `Nat`) to alias. -/
def serialize_state (connections : List (Nat × String)) : String :=
  "\x7b\"type\":\"participants\",\"value\":[" ++
    String.intercalate "," (connections.map (fun p => "\"" ++ p.2 ++ "\"")) ++
    "]\x7d"

/-- Translated from `chat.cpp` `chat_server_handler::send_to_all`: the
messages sent, one `(session, data)` pair per connection in the map. -/
def send_to_all (connections : List (Nat × String)) (data : String) :
    List (Nat × String) :=
  connections.map (fun p => (p.1, data))

/-- Translated from `chat.cpp` `chat_server_handler::on_close`: look the
session up in the connection map; when absent, return immediately
(already disconnected); otherwise erase its entry (map keys are unique,
so erasing the found iterator is removing every pair with that key) and
broadcast the new roster followed by the signoff message.  Returns the
new connection map and the list of sent `(session, data)` messages. -/
def on_close (connections : List (Nat × String)) (session : Nat) :
    List (Nat × String) × List (Nat × String) :=
  match connections.find? (fun p => p.1 == session) with
  | none => (connections, [])
  | some entry =>
    let conns := connections.filter (fun p => p.1 ≠ session)
    (conns,
     send_to_all conns (serialize_state conns) ++
       send_to_all conns
         (encode_message "server" (entry.2 ++ " has left the chat.") true))

/-- The request of the `exact_match` test case: key3 is delivered in the
`Sec-WebSocket-Key3` header as the test's transport framing does. -/
def exact_request : Request :=
  ⟨"GET", (1, 1), "/",
   [("Host", "www.example.com"), ("Connection", "upgrade"),
    ("Upgrade", "websocket"), ("Origin", "http://example.com"),
    ("Sec-WebSocket-Key1", "3e6b263  4 17 80"),
    ("Sec-WebSocket-Key2", "17  9 G`ZD9   2 2b 7X 3 /r90"),
    ("Sec-WebSocket-Key3", "WjN\x7d|M(6")]⟩

/-- The request of the `non_get_method` test case. -/
def post_request : Request :=
  ⟨"POST", (1, 1), "/",
   [("Host", "www.example.com"), ("Connection", "upgrade"),
    ("Upgrade", "websocket"),
    ("Sec-WebSocket-Key1", "3e6b263  4 17 80"),
    ("Sec-WebSocket-Key2", "17  9 G`ZD9   2 2b 7X 3 /r90"),
    ("Sec-WebSocket-Key3", "janelle!")]⟩

/-- The request of the `old_http_version` test case (HTTP/1.0). -/
def old_version_request : Request :=
  ⟨"GET", (1, 0), "/",
   [("Host", "www.example.com"), ("Connection", "upgrade"),
    ("Upgrade", "websocket"),
    ("Sec-WebSocket-Key1", "3e6b263  4 17 80"),
    ("Sec-WebSocket-Key2", "17  9 G`ZD9   2 2b 7X 3 /r90"),
    ("Sec-WebSocket-Key3", "janelle!")]⟩

/-- The request of the `missing_handshake_key1` test case: only the first
challenge header is present. -/
def missing_key2_request : Request :=
  ⟨"GET", (1, 1), "/",
   [("Host", "www.example.com"), ("Connection", "upgrade"),
    ("Upgrade", "websocket"),
    ("Sec-WebSocket-Key1", "3e6b263  4 17 80"),
    ("Sec-WebSocket-Key3", "janelle!")]⟩

/-- The request of the `missing_handshake_key2` test case: only the
second challenge header is present. -/
def missing_key1_request : Request :=
  ⟨"GET", (1, 1), "/",
   [("Host", "www.example.com"), ("Connection", "upgrade"),
    ("Upgrade", "websocket"),
    ("Sec-WebSocket-Key2", "17  9 G`ZD9   2 2b 7X 3 /r90"),
    ("Sec-WebSocket-Key3", "janelle!")]⟩

/-- The request of the `bad_host` test case: a Host header whose port
exceeds 65535. -/
def bad_host_request : Request :=
  ⟨"GET", (1, 1), "/",
   [("Host", "www.example.com:70000"), ("Connection", "upgrade"),
    ("Upgrade", "websocket"), ("Origin", "http://example.com"),
    ("Sec-WebSocket-Key1", "3e6b263  4 17 80"),
    ("Sec-WebSocket-Key2", "17  9 G`ZD9   2 2b 7X 3 /r90"),
    ("Sec-WebSocket-Key3", "janelle!")]⟩

/-- A request whose required headers are all present (so validation
succeeds) but whose first challenge key contains no space character, the
degenerate input of §4.3 step 2. -/
def degenerate_key_request : Request :=
  ⟨"GET", (1, 1), "/",
   [("Host", "www.example.com"), ("Connection", "upgrade"),
    ("Upgrade", "websocket"),
    ("Sec-WebSocket-Key1", "12"),
    ("Sec-WebSocket-Key2", "17  9 G`ZD9   2 2b 7X 3 /r90"),
    ("Sec-WebSocket-Key3", "janelle!")]⟩

/-- The digest bytes the worked example must produce: the literal ASCII
sequence of the 16 characters of the expected response body. -/
def exact_digest : List Nat := strBytes "n`9eBk9z$R8pOtVb"

theorem concatMap_append (f : Char → List Char) (a b : List Char) :
    concatMap f (a ++ b) = concatMap f a ++ concatMap f b := by
  induction a with
  | nil => simp [concatMap]
  | cons c rest ih => simp [concatMap, ih]

theorem concatMap_concatMap (f g : Char → List Char) (s : List Char) :
    concatMap g (concatMap f s) = concatMap (fun c => concatMap g (f c)) s := by
  induction s with
  | nil => simp [concatMap]
  | cons c rest ih => simp [concatMap, concatMap_append, ih]

theorem concatMap_congr (f g : Char → List Char) (h : ∀ c, f c = g c) :
    ∀ s : List Char, concatMap f s = concatMap g s := by
  intro s
  induction s with
  | nil => rfl
  | cons c rest ih => simp [concatMap, ih, h c]

theorem replaceAll_single (c0 : Char) (repl : List Char) (s : List Char) :
    replaceAll [c0] repl s = concatMap (fun x => if x = c0 then repl else [x]) s := by
  induction s with
  | nil => simp [replaceAll, concatMap]
  | cons c rest ih =>
    rw [replaceAll]
    by_cases h : c0 = c
    · subst h
      simp [List.isPrefixOf, concatMap, ih]
    · have h' : ¬ (c = c0) := fun hh => h hh.symm
      simp [List.isPrefixOf, concatMap, ih, h, h']

theorem chain_false (l : List Char) :
    replaceAll ['"'] ['\\', '"'] (replaceAll ['\\'] ['\\', '\\'] l) =
      concatMap (escapeChar false) l := by
  rw [replaceAll_single, replaceAll_single, concatMap_concatMap]
  apply concatMap_congr
  intro c
  by_cases h1 : c = '\\'
  · subst h1; rfl
  by_cases h2 : c = '"'
  · subst h2; rfl
  simp [escapeChar, concatMap, h1, h2]

theorem chain_true (l : List Char) :
    replaceAll ['>'] "&gt;".toList
      (replaceAll ['<'] "&lt;".toList
        (replaceAll ['&'] "&amp;".toList
          (replaceAll ['"'] ['\\', '"'] (replaceAll ['\\'] ['\\', '\\'] l)))) =
      concatMap (escapeChar true) l := by
  rw [replaceAll_single, replaceAll_single, replaceAll_single, replaceAll_single,
    replaceAll_single]
  rw [concatMap_concatMap, concatMap_concatMap, concatMap_concatMap, concatMap_concatMap]
  apply concatMap_congr
  intro c
  by_cases h1 : c = '\\'
  · subst h1; rfl
  by_cases h2 : c = '"'
  · subst h2; rfl
  by_cases h3 : c = '&'
  · subst h3; rfl
  by_cases h4 : c = '<'
  · subst h4; rfl
  by_cases h5 : c = '>'
  · subst h5; rfl
  simp [escapeChar, concatMap, h1, h2, h3, h4, h5]

set_option maxRecDepth 10000 in
/-- Claim C1: the legacy key derivation on key1 = "3e6b263  4 17 80",
key2 = "17  9 G\`ZD9   2 2b 7X 3 /r90", key3 = "WjN\x7d|M(6" produces
exactly the 16-byte digest whose bytes are the literal ASCII sequence
"n\`9eBk9z$R8pOtVb", and the derivation is deterministic: the same key
triple always yields the same digest. -/
theorem legacy_digest_worked_example :
    legacy_digest "3e6b263  4 17 80" "17  9 G`ZD9   2 2b 7X 3 /r90"
        (strBytes "WjN\x7d|M(6") = .ok (strBytes "n`9eBk9z$R8pOtVb") ∧
    ∀ k1 k2 k3, legacy_digest k1 k2 k3 = legacy_digest k1 k2 k3 :=
  ⟨by decide, fun _ _ _ => rfl⟩

/-- Claim C2, counterexample to the claim as stated: a request whose
required headers are all present passes validation, yet
`process_handshake` fails, because its first challenge key contains no
space character and the key derivation must fail explicitly on that
degenerate input (§4.3 step 2). -/
theorem process_handshake_counterexample :
    validate_handshake degenerate_key_request = .ok () ∧
    process_handshake false degenerate_key_request "" =
      .error .invalid_handshake_key :=
  ⟨by decide, by decide⟩

/-- Claim C2, amended: for every request that passes legacy handshake
validation and whose challenge keys derive a digest successfully,
`process_handshake` succeeds and populates the response with
Connection = "Upgrade", Upgrade = "websocket", an origin-echo header
equal to the request's Origin value, a location header equal to "ws://"
followed by the request's host and resource ("wss://" when secure), and
a body equal to the 16-byte computed digest. -/
theorem process_handshake_populates (secure : Bool) (req : Request)
    (sp : String) (d : List Nat)
    (hval : validate_handshake req = .ok ())
    (hd : request_digest req = .ok d) :
    ∃ res, process_handshake secure req sp = .ok res ∧
      getResponseHeader res "Connection" = some "Upgrade" ∧
      getResponseHeader res "Upgrade" = some "websocket" ∧
      getResponseHeader res "Sec-WebSocket-Origin" =
        some ((getHeader req "Origin").getD "") ∧
      getResponseHeader res "Sec-WebSocket-Location" =
        some ((if secure then "wss://" else "ws://") ++
          (getHeader req "Host").getD "" ++ req.resource) ∧
      res.body = d := by
  unfold process_handshake
  rw [hd]
  exact ⟨_, rfl, rfl, rfl, rfl, rfl, rfl⟩

set_option maxRecDepth 10000 in
/-- Witness for claim C2's amended theorem, at the request of the
`exact_match` test case. -/
theorem process_handshake_populates_witness :
    validate_handshake exact_request = .ok () ∧
    request_digest exact_request = .ok exact_digest ∧
    ∃ res, process_handshake false exact_request "" = .ok res ∧
      getResponseHeader res "Connection" = some "Upgrade" ∧
      getResponseHeader res "Upgrade" = some "websocket" ∧
      getResponseHeader res "Sec-WebSocket-Origin" = some "http://example.com" ∧
      getResponseHeader res "Sec-WebSocket-Location" = some "ws://www.example.com/" ∧
      res.body = exact_digest :=
  ⟨by decide, by decide,
   process_handshake_populates false exact_request "" exact_digest
     (by decide) (by decide)⟩

/-- Claim C3: for every request on which `validate_handshake` succeeds
but whose Host header names a port greater than 65535, `get_uri` on that
same request fails with `uri_resolution_failed`; validation itself never
attempts URI resolution, so the two outcomes are independent. -/
theorem get_uri_port_overflow (secure : Bool) (req : Request)
    (h host portStr : String) (p : Nat)
    (hval : validate_handshake req = .ok ())
    (hh : getHeader req "Host" = some h)
    (hs : splitOnStr h ':' = [host, portStr])
    (hp : parsePortDigits portStr = some p)
    (hgt : 65535 < p) :
    get_uri secure req = .error .uri_resolution_failed := by
  simp only [get_uri, hh, hs, hp]
  rw [if_pos hgt]

/-- Witness for claim C3's theorem, at the request of the `bad_host`
test case (host "www.example.com:70000"). -/
theorem get_uri_port_overflow_witness :
    validate_handshake bad_host_request = .ok () ∧
    getHeader bad_host_request "Host" = some "www.example.com:70000" ∧
    splitOnStr "www.example.com:70000" ':' = ["www.example.com", "70000"] ∧
    parsePortDigits "70000" = some 70000 ∧
    65535 < 70000 ∧
    get_uri false bad_host_request = .error .uri_resolution_failed :=
  ⟨by decide, by decide, by decide, by decide, by decide,
   get_uri_port_overflow false bad_host_request "www.example.com:70000"
     "www.example.com" "70000" 70000 (by decide) (by decide) (by decide)
     (by decide) (by decide)⟩

/-- Claim C4: for every handshake request whose method is not GET,
`validate_handshake` returns the error `invalid_http_method`. -/
theorem validate_non_get (req : Request) (h : req.method ≠ "GET") :
    validate_handshake req = .error .invalid_http_method := by
  unfold validate_handshake
  simp [h]

/-- Witness for claim C4's theorem, at the POST request of the
`non_get_method` test case. -/
theorem validate_non_get_witness :
    post_request.method ≠ "GET" ∧
    validate_handshake post_request = .error .invalid_http_method :=
  ⟨by decide, validate_non_get post_request (by decide)⟩

/-- Claim C5, counterexample to the claim as stated: a POST request with
HTTP version 1.0 has HTTP version below 1.1, yet `validate_handshake`
returns `invalid_http_method`, not `invalid_http_version`, because the
method check (§4.2 rule 1) precedes the version check (rule 2). -/
theorem validate_version_counterexample :
    versionAtLeast11 (1, 0) = false ∧
    validate_handshake ⟨"POST", (1, 0), "/", []⟩ ≠ .error .invalid_http_version ∧
    validate_handshake ⟨"POST", (1, 0), "/", []⟩ = .error .invalid_http_method :=
  ⟨by decide, by decide, by decide⟩

/-- Claim C5, amended: for every handshake request whose method is GET
and whose HTTP version is below 1.1 (e.g. HTTP/1.0), `validate_handshake`
returns the error `invalid_http_version`. -/
theorem validate_old_version (req : Request) (hm : req.method = "GET")
    (hv : versionAtLeast11 req.version = false) :
    validate_handshake req = .error .invalid_http_version := by
  unfold validate_handshake
  simp [hm, hv]

/-- Witness for claim C5's amended theorem, at the HTTP/1.0 request of
the `old_http_version` test case. -/
theorem validate_old_version_witness :
    old_version_request.method = "GET" ∧
    versionAtLeast11 old_version_request.version = false ∧
    validate_handshake old_version_request = .error .invalid_http_version :=
  ⟨by decide, by decide,
   validate_old_version old_version_request (by decide) (by decide)⟩

/-- Claim C6: for every legacy handshake request that is a GET with HTTP
version ≥ 1.1 but is missing at least one required header — in
particular, missing either of the two challenge headers
Sec-WebSocket-Key1 or Sec-WebSocket-Key2 — `validate_handshake` returns
the single error `missing_required_header`. -/
theorem validate_missing_header (req : Request) (hm : req.method = "GET")
    (hv : versionAtLeast11 req.version = true)
    (hk : ∃ name ∈ requiredHeaders, getHeader req name = none) :
    validate_handshake req = .error .missing_required_header := by
  obtain ⟨name, hn, hnone⟩ := hk
  have hall : requiredHeaders.all (fun h => (getHeader req h).isSome) = false :=
    List.all_eq_false.mpr ⟨name, hn, by simp [hnone]⟩
  simp [validate_handshake, hm, hv, hall]

/-- Witness for claim C6's theorem, at the requests of the
`missing_handshake_key1` and `missing_handshake_key2` test cases (one
challenge header absent in each). -/
theorem validate_missing_header_witness :
    (missing_key1_request.method = "GET" ∧
      versionAtLeast11 missing_key1_request.version = true ∧
      (∃ name ∈ requiredHeaders, getHeader missing_key1_request name = none) ∧
      validate_handshake missing_key1_request = .error .missing_required_header) ∧
    (missing_key2_request.method = "GET" ∧
      versionAtLeast11 missing_key2_request.version = true ∧
      (∃ name ∈ requiredHeaders, getHeader missing_key2_request name = none) ∧
      validate_handshake missing_key2_request = .error .missing_required_header) :=
  ⟨⟨by decide, by decide, by decide,
    validate_missing_header missing_key1_request (by decide) (by decide)
      ⟨"Sec-WebSocket-Key1", by decide, by decide⟩⟩,
   ⟨by decide, by decide, by decide,
    validate_missing_header missing_key2_request (by decide) (by decide)
      ⟨"Sec-WebSocket-Key2", by decide, by decide⟩⟩⟩

/-- Claim C7: for every request, `is_websocket_handshake` returns true
if and only if the Connection header contains the token "upgrade" among
its comma-separated tokens and the Upgrade header contains the token
"websocket", each compared case-insensitively after trimming surrounding
whitespace, regardless of token order or position in the header value. -/
theorem is_websocket_handshake_iff (req : Request) :
    is_websocket_handshake req = true ↔
      ((∃ t ∈ splitOnStr ((getHeader req "Connection").getD "") ',',
          strLower (strTrim t) = "upgrade") ∧
       (∃ t ∈ splitOnStr ((getHeader req "Upgrade").getD "") ',',
          strLower (strTrim t) = "websocket")) := by
  simp [is_websocket_handshake, hasToken, tokenList, List.any_eq_true,
    List.mem_map, beq_iff_eq, Bool.and_eq_true]

/-- Claim C8: for every request in which the subprotocol header is
absent, `extract_subprotocols` succeeds and yields the empty token list;
header absence is never reported as a failure. -/
theorem extract_subprotocols_absent (req : Request)
    (h : getHeader req "Sec-WebSocket-Protocol" = none) :
    extract_subprotocols req = .ok [] := by
  unfold extract_subprotocols
  rw [h]

/-- Witness for claim C8's theorem, at the `exact_match` request, which
carries no subprotocol header. -/
theorem extract_subprotocols_absent_witness :
    getHeader exact_request "Sec-WebSocket-Protocol" = none ∧
    extract_subprotocols exact_request = .ok [] :=
  ⟨by decide, extract_subprotocols_absent exact_request (by decide)⟩

/-- Claim C9: for every sender, message text and escape flag,
`encode_message` returns the message JSON object whose value field is
the message with backslash and double quote JSON-escaped in every case
and with the HTML entities & < > additionally escaped exactly when the
escape flag is true, character by character. -/
theorem encode_message_spec (sender msg : String) (escape : Bool) :
    encode_message sender msg escape =
      "\x7b\"type\":\"msg\",\"sender\":\"" ++ sender ++ "\",\"value\":\"" ++
        escapedValue escape msg ++ "\"\x7d" := by
  cases escape with
  | false =>
    show "\x7b\"type\":\"msg\",\"sender\":\"" ++ sender ++ "\",\"value\":\"" ++
        String.mk (replaceAll ['"'] ['\\', '"']
          (replaceAll ['\\'] ['\\', '\\'] msg.toList)) ++ "\"\x7d" = _
    rw [chain_false]
    rfl
  | true =>
    show "\x7b\"type\":\"msg\",\"sender\":\"" ++ sender ++ "\",\"value\":\"" ++
        String.mk (replaceAll ['>'] "&gt;".toList
          (replaceAll ['<'] "&lt;".toList
            (replaceAll ['&'] "&amp;".toList
              (replaceAll ['"'] ['\\', '"']
                (replaceAll ['\\'] ['\\', '\\'] msg.toList))))) ++ "\"\x7d" = _
    rw [chain_true]
    rfl

/-- Claim C10: calling `on_close` with a session that is not present in
the connection map leaves the connection map unchanged and sends no
messages to any connection. -/
theorem on_close_absent (connections : List (Nat × String)) (session : Nat)
    (h : ∀ p ∈ connections, p.1 ≠ session) :
    on_close connections session = (connections, []) := by
  unfold on_close
  have hf : connections.find? (fun p => p.1 == session) = none := by
    rw [List.find?_eq_none]
    intro p hp
    simpa using h p hp
  rw [hf]

/-- Witness for claim C10's theorem: closing session 2 on a map holding
only session 1 changes nothing and sends nothing. -/
theorem on_close_absent_witness :
    (∀ p ∈ [(1, "alice")], p.1 ≠ 2) ∧
    on_close [(1, "alice")] 2 = ([(1, "alice")], []) :=
  ⟨by decide, on_close_absent [(1, "alice")] 2 (by decide)⟩
